import Mathlib

/-!
# Latency-measuring decorator of the cloud provider interface

Embedding of `pkg/cloudprovider/metrics/cloudprovider.go`.

Every method of the interface is a transformer of an explicit `World`: the
monotonic clock, the state the provider works on (backend and the objects
reached through pointers), the observations made into
`methodDurationHistogramVec`, and a log of the collaborator calls in the order
they happen. A Go call that may unwind yields an `Outcome`.
-/

namespace Karpenter

/-! ## Data model -/

/-- Go `time.Duration`: a signed count of nanoseconds. -/
abbrev Duration := Int

/-- A Go pointer (`*v1alpha5.Constraints`, `*v1.Node`, `*v1alpha5.Provider`):
the address of an object that lives in the store of the world. -/
abbrev Ptr := Nat

/-- A non-nil Go `error` value. -/
abbrev GoError := String

/-- The `context.Context` handed to every method. `controllerName` is the value
stored under the controller name key of package `injection`, when there is one;
`scope` stands for every other request-scoped value. -/
structure Context where
  controllerName : Option String
  scope : Nat
  deriving DecidableEq, Repr

/-- A `cloudprovider.InstanceType` descriptor. -/
structure InstanceType where
  Name : String
  deriving DecidableEq, Repr

/-- The exported fields of `apis.FieldError`. -/
structure FieldError where
  Message : String
  Paths : List String
  Details : String
  deriving DecidableEq, Repr

/-- How a Go call ends: it returns a value, or it panics and unwinds. -/
inductive Outcome (α : Type) where
  | returned (a : α)
  | panicked (v : String)
  deriving DecidableEq, Repr

/-- An invocation received by a provider (the callback of `Create` is a
function and is not part of the record), or by a callback. -/
inductive Call where
  | Create (ctx : Context) (constraints : Ptr) (instanceTypes : List InstanceType) (quantity : Int)
  | Delete (ctx : Context) (node : Ptr)
  | GetInstanceTypes (ctx : Context) (provider : Ptr)
  | Default (ctx : Context) (constraints : Ptr)
  | Validate (ctx : Context) (constraints : Ptr)
  | callback (node : Ptr)
  deriving DecidableEq, Repr

/-- One entry of the log of a world. -/
inductive Event where
  | getControllerName (ctx : Context)
  | name
  | withLabelValues (lvs : List String)
  | timerStart (reading : Nat)
  | invoked (c : Call)
  | observe (elapsed : Duration)
  deriving DecidableEq, Repr

/-- One observation of the histogram: the label pairs of the child it went to
and the elapsed time handed to `Observe`. The time is kept as the exact
`time.Duration` of `time.Since(start)`; the conversion `.Seconds()` to a
floating point number of seconds is not modelled. -/
structure Measurement where
  labels : List (String × String)
  elapsed : Duration
  deriving DecidableEq, Repr

/-- The state every call runs in. -/
structure World (σ : Type) where
  /-- Reading of the monotonic clock, in nanoseconds. -/
  now : Nat
  /-- What the inner provider reads and writes. -/
  store : σ
  /-- Observations made into `methodDurationHistogramVec`, oldest first. -/
  observed : List Measurement
  /-- Collaborator calls, oldest first. -/
  log : List Event

/-- Go `func(*v1.Node) error`. -/
abbrev Callback (σ : Type) := Ptr → World σ → Outcome (Option GoError) × World σ

/-- The interface `cloudprovider.CloudProvider`. -/
structure CloudProvider (σ : Type) where
  Create : Context → Ptr → List InstanceType → Int → Callback σ → World σ →
    Outcome (Option GoError) × World σ
  Delete : Context → Ptr → World σ → Outcome (Option GoError) × World σ
  GetInstanceTypes : Context → Ptr → World σ →
    Outcome (List InstanceType × Option GoError) × World σ
  Default : Context → Ptr → World σ → Outcome Unit × World σ
  Validate : Context → Ptr → World σ → Outcome (Option FieldError) × World σ
  Name : String

/-- What the source file takes from outside: the constant `metrics.Namespace`,
the value `injection.GetControllerName` falls back to, and the time each step
of a method takes on the monotonic clock. -/
structure Env where
  Namespace : String
  fallback : String
  tGetControllerName : Nat
  tName : Nat
  tWithLabelValues : Nat
  tCall : Nat
  tReturn : Nat
  deriving DecidableEq, Repr

/-! ## Collaborators -/

/-- A step that takes `cost` nanoseconds and is entered in the log. -/
def step {σ : Type} (cost : Nat) (e : Event) (w : World σ) : World σ :=
  { w with now := w.now + cost, log := w.log ++ [e] }

/-- Time passing without a collaborator being called. -/
def elapse {σ : Type} (cost : Nat) (w : World σ) : World σ :=
  { w with now := w.now + cost }

/-- Modelled from the spec: `injection.GetControllerName`, the context accessor
of package `pkg/utils/injection`: the identifier the context carries, and a
default value when it carries none; it never fails the call. -/
def GetControllerName (env : Env) (ctx : Context) : String :=
  match ctx.controllerName with
  | some name => name
  | none => env.fallback

/-- The fields of `prometheus.HistogramOpts` the source sets. -/
structure HistogramOpts where
  Namespace : String
  Subsystem : String
  Name : String
  Help : String
  deriving DecidableEq, Repr

/-- A `prometheus.HistogramVec`: its options and its variable label names. -/
structure HistogramVec where
  opts : HistogramOpts
  labelNames : List String
  deriving DecidableEq, Repr

/-- A child of a histogram vector (`prometheus.Observer`): its label pairs. -/
structure Observer where
  labels : List (String × String)
  deriving DecidableEq, Repr

/-- `prometheus.BuildFQName` of the Prometheus client library: the parts that
are not empty, joined by an underscore. -/
def BuildFQName (ns subsystem name : String) : String :=
  if name = "" then ""
  else if ns ≠ "" ∧ subsystem ≠ "" then ns ++ "_" ++ subsystem ++ "_" ++ name
  else if ns ≠ "" then ns ++ "_" ++ name
  else if subsystem ≠ "" then subsystem ++ "_" ++ name
  else name

/-- `(*HistogramVec).WithLabelValues` of the Prometheus client library, on
valid UTF-8 strings: the values are matched by position with
the label names of the vector; `none` is the panic on a number of values that
differs from the number of names. -/
def WithLabelValues (v : HistogramVec) (lvs : List String) : Option Observer :=
  if lvs.length = v.labelNames.length then some ⟨v.labelNames.zip lvs⟩ else none

/-- `Observer.Observe` of the Prometheus client library: one more observation
in the histogram. -/
def Observe {σ : Type} (o : Observer) (elapsed : Duration) (w : World σ) : World σ :=
  { w with observed := w.observed ++ [⟨o.labels, elapsed⟩],
           log := w.log ++ [Event.observe elapsed] }

/-- Modelled from the spec: `metrics.Measure` of package `pkg/metrics`, the
timer: called, it reads the clock (`start := time.Now()`) and returns the
closure that, when run, observes `time.Since(start)` into the observer. -/
def Measure {σ : Type} (observer : Observer) (w : World σ) :
    (World σ → World σ) × World σ :=
  let start := w.now
  (fun w' => Observe observer ((w'.now : Int) - (start : Int)) w',
   { w with log := w.log ++ [Event.timerStart start] })

/-! ## The source file -/

def metricLabelController : String := "controller"

def metricLabelMethod : String := "method"

def metricLabelProvider : String := "provider"

/-- The package variable `methodDurationHistogramVec`. -/
def methodDurationHistogramVec (env : Env) : HistogramVec :=
  { opts :=
      { Namespace := env.Namespace
        Subsystem := "cloudprovider"
        Name := "duration_seconds"
        Help := "Duration of cloud provider method calls." }
    labelNames := [metricLabelController, metricLabelMethod, metricLabelProvider] }

/-- The struct `decorator`: it embeds the interface value it wraps. -/
structure decorator (σ : Type) where
  CloudProvider : CloudProvider σ

/-- The method `Name` is promoted from the embedded interface value. -/
def decorator.Name {σ : Type} (d : decorator σ) : String :=
  d.CloudProvider.Name

/-- The statement
`defer metrics.Measure(methodDurationHistogramVec.WithLabelValues(injection.GetControllerName(ctx), method, d.Name()))()`
up to the point where the closure to defer is known. Go evaluates the function
value of a deferred call when the `defer` statement executes, and the
arguments of a call before the call: `GetControllerName(ctx)`, then `d.Name()`,
then `WithLabelValues`, then `Measure`. A panic of `WithLabelValues` unwinds
before anything is deferred. -/
def deferMeasure {σ : Type} (env : Env) (d : decorator σ) (ctx : Context) (method : String)
    (w : World σ) : Outcome (World σ → World σ) × World σ :=
  let controller := GetControllerName env ctx
  let w₁ := step env.tGetControllerName (Event.getControllerName ctx) w
  let provider := d.Name
  let w₂ := step env.tName Event.name w₁
  let lvs := [controller, method, provider]
  let w₃ := step env.tWithLabelValues (Event.withLabelValues lvs) w₂
  match WithLabelValues (methodDurationHistogramVec env) lvs with
  | none => (Outcome.panicked "inconsistent label cardinality", w₃)
  | some observer =>
    let (stop, w₄) := Measure observer w₃
    (Outcome.returned stop, w₄)

/-- The body of a method after its `defer` statement: the body runs, then the
deferred closure runs, whether the body returned or panicked, and the outcome
of the body is the outcome of the method. -/
def runDeferred {σ α : Type} (env : Env) (stop : World σ → World σ)
    (body : World σ → Outcome α × World σ) (w : World σ) : Outcome α × World σ :=
  let (r, w') := body (elapse env.tCall w)
  (r, stop (elapse env.tReturn w'))

def decorator.Create {σ : Type} (env : Env) (d : decorator σ) (ctx : Context)
    (constraints : Ptr) (instanceTypes : List InstanceType) (quantity : Int)
    (callback : Callback σ) (w : World σ) : Outcome (Option GoError) × World σ :=
  match deferMeasure env d ctx "Create" w with
  | (Outcome.panicked v, w₁) => (Outcome.panicked v, w₁)
  | (Outcome.returned stop, w₁) =>
    runDeferred env stop
      (d.CloudProvider.Create ctx constraints instanceTypes quantity callback) w₁

def decorator.Delete {σ : Type} (env : Env) (d : decorator σ) (ctx : Context) (node : Ptr)
    (w : World σ) : Outcome (Option GoError) × World σ :=
  match deferMeasure env d ctx "Delete" w with
  | (Outcome.panicked v, w₁) => (Outcome.panicked v, w₁)
  | (Outcome.returned stop, w₁) =>
    runDeferred env stop (d.CloudProvider.Delete ctx node) w₁

def decorator.GetInstanceTypes {σ : Type} (env : Env) (d : decorator σ) (ctx : Context)
    (provider : Ptr) (w : World σ) :
    Outcome (List InstanceType × Option GoError) × World σ :=
  match deferMeasure env d ctx "GetInstanceTypes" w with
  | (Outcome.panicked v, w₁) => (Outcome.panicked v, w₁)
  | (Outcome.returned stop, w₁) =>
    runDeferred env stop (d.CloudProvider.GetInstanceTypes ctx provider) w₁

def decorator.Default {σ : Type} (env : Env) (d : decorator σ) (ctx : Context)
    (constraints : Ptr) (w : World σ) : Outcome Unit × World σ :=
  match deferMeasure env d ctx "Default" w with
  | (Outcome.panicked v, w₁) => (Outcome.panicked v, w₁)
  | (Outcome.returned stop, w₁) =>
    runDeferred env stop (d.CloudProvider.Default ctx constraints) w₁

def decorator.Validate {σ : Type} (env : Env) (d : decorator σ) (ctx : Context)
    (constraints : Ptr) (w : World σ) : Outcome (Option FieldError) × World σ :=
  match deferMeasure env d ctx "Validate" w with
  | (Outcome.panicked v, w₁) => (Outcome.panicked v, w₁)
  | (Outcome.returned stop, w₁) =>
    runDeferred env stop (d.CloudProvider.Validate ctx constraints) w₁

/-- `Decorate`: the decorator of `cloudProvider`, as a `CloudProvider`. -/
def Decorate {σ : Type} (env : Env) (cloudProvider : CloudProvider σ) : CloudProvider σ :=
  let d : decorator σ := ⟨cloudProvider⟩
  { Create := decorator.Create env d
    Delete := decorator.Delete env d
    GetInstanceTypes := decorator.GetInstanceTypes env d
    Default := decorator.Default env d
    Validate := decorator.Validate env d
    Name := d.Name }

/-! ## Vocabulary of the statements -/

/-- The label pairs of the child a call of `method` on the decorator of `p`
under `ctx` observes into. -/
def labelPairs {σ : Type} (env : Env) (ctx : Context) (method : String) (p : CloudProvider σ) :
    List (String × String) :=
  [(metricLabelController, GetControllerName env ctx), (metricLabelMethod, method),
   (metricLabelProvider, p.Name)]

/-- The time the label values take: the context accessor, `Name`, and the
lookup of the child. -/
def labelTime (env : Env) : Nat :=
  env.tGetControllerName + env.tName + env.tWithLabelValues

/-- The world right after the `defer` statement of a method entered in `w`. -/
def armed {σ : Type} (env : Env) (ctx : Context) (method : String) (p : CloudProvider σ)
    (w : World σ) : World σ :=
  { w with
    now := w.now + labelTime env
    log := w.log ++
      [Event.getControllerName ctx, Event.name,
       Event.withLabelValues [GetControllerName env ctx, method, p.Name],
       Event.timerStart (w.now + labelTime env)] }

/-- The world the inner method is invoked in. -/
def entered {σ : Type} (env : Env) (ctx : Context) (method : String) (p : CloudProvider σ)
    (w : World σ) : World σ :=
  elapse env.tCall (armed env ctx method p w)

/-- The time the deferred closure observes when the inner method left the
world `w'` and the timer was started at reading `start`. -/
def recorded {σ : Type} (env : Env) (start : Nat) (w' : World σ) : Duration :=
  ((w'.now + env.tReturn : Nat) : Int) - (start : Int)

/-- The world a method of the decorator leaves, from the world `w'` the inner
method left: the deferred closure has observed the time since `start`. -/
def finish {σ : Type} (env : Env) (labels : List (String × String)) (start : Nat)
    (w' : World σ) : World σ :=
  { w' with
    now := w'.now + env.tReturn
    observed := w'.observed ++ [⟨labels, recorded env start w'⟩]
    log := w'.log ++ [Event.observe (recorded env start w')] }

/-- The value of the label `name` of a measurement. -/
def Measurement.label (m : Measurement) (name : String) : Option String :=
  m.labels.lookup name

/-! ## Calls as data -/

/-- A call of one of the five methods, with its context and arguments. -/
inductive Invocation (σ : Type) where
  | Create (ctx : Context) (constraints : Ptr) (instanceTypes : List InstanceType)
      (quantity : Int) (callback : Callback σ)
  | Delete (ctx : Context) (node : Ptr)
  | GetInstanceTypes (ctx : Context) (provider : Ptr)
  | Default (ctx : Context) (constraints : Ptr)
  | Validate (ctx : Context) (constraints : Ptr)

/-- The context of a call. -/
def Invocation.ctx {σ : Type} : Invocation σ → Context
  | Invocation.Create ctx _ _ _ _ => ctx
  | Invocation.Delete ctx _ => ctx
  | Invocation.GetInstanceTypes ctx _ => ctx
  | Invocation.Default ctx _ => ctx
  | Invocation.Validate ctx _ => ctx

/-- The name of the method called. -/
def Invocation.method {σ : Type} : Invocation σ → String
  | Invocation.Create _ _ _ _ _ => "Create"
  | Invocation.Delete _ _ => "Delete"
  | Invocation.GetInstanceTypes _ _ => "GetInstanceTypes"
  | Invocation.Default _ _ => "Default"
  | Invocation.Validate _ _ => "Validate"

/-- The record an instrumented provider logs on receiving the call. -/
def Invocation.record {σ : Type} : Invocation σ → Call
  | Invocation.Create ctx c its q _ => Call.Create ctx c its q
  | Invocation.Delete ctx n => Call.Delete ctx n
  | Invocation.GetInstanceTypes ctx pr => Call.GetInstanceTypes ctx pr
  | Invocation.Default ctx c => Call.Default ctx c
  | Invocation.Validate ctx c => Call.Validate ctx c

/-- What a call gives back to its caller. -/
inductive Reply where
  | Create (o : Outcome (Option GoError))
  | Delete (o : Outcome (Option GoError))
  | GetInstanceTypes (o : Outcome (List InstanceType × Option GoError))
  | Default (o : Outcome Unit)
  | Validate (o : Outcome (Option FieldError))
  deriving DecidableEq, Repr

/-- The value a call unwinds with, when it panics. -/
def Outcome.panic? {α : Type} : Outcome α → Option String
  | Outcome.returned _ => none
  | Outcome.panicked v => some v

/-- The value a call unwinds with, when it panics. -/
def Reply.panic? : Reply → Option String
  | Reply.Create o => o.panic?
  | Reply.Delete o => o.panic?
  | Reply.GetInstanceTypes o => o.panic?
  | Reply.Default o => o.panic?
  | Reply.Validate o => o.panic?

/-- Makes the call on a provider. -/
def invoke {σ : Type} (p : CloudProvider σ) : Invocation σ → World σ → Reply × World σ
  | Invocation.Create ctx c its q cb, w =>
    (Reply.Create (p.Create ctx c its q cb w).1, (p.Create ctx c its q cb w).2)
  | Invocation.Delete ctx n, w => (Reply.Delete (p.Delete ctx n w).1, (p.Delete ctx n w).2)
  | Invocation.GetInstanceTypes ctx pr, w =>
    (Reply.GetInstanceTypes (p.GetInstanceTypes ctx pr w).1, (p.GetInstanceTypes ctx pr w).2)
  | Invocation.Default ctx c, w => (Reply.Default (p.Default ctx c w).1, (p.Default ctx c w).2)
  | Invocation.Validate ctx c, w => (Reply.Validate (p.Validate ctx c w).1, (p.Validate ctx c w).2)

/-- Makes a finite sequence of calls on a provider, one after the other. -/
def invokeAll {σ : Type} (p : CloudProvider σ) : List (Invocation σ) → World σ →
    List Reply × World σ
  | [], w => ([], w)
  | c :: cs, w =>
    ((invoke p c w).1 :: (invokeAll p cs (invoke p c w).2).1,
     (invokeAll p cs (invoke p c w).2).2)

/-- The provider `p`, instrumented: each method enters the call it receives in
the log and then does what `p` does. -/
def spy {σ : Type} (p : CloudProvider σ) : CloudProvider σ :=
  { Create := fun ctx c its q cb w =>
      p.Create ctx c its q cb { w with log := w.log ++ [Event.invoked (Call.Create ctx c its q)] }
    Delete := fun ctx n w =>
      p.Delete ctx n { w with log := w.log ++ [Event.invoked (Call.Delete ctx n)] }
    GetInstanceTypes := fun ctx pr w =>
      p.GetInstanceTypes ctx pr
        { w with log := w.log ++ [Event.invoked (Call.GetInstanceTypes ctx pr)] }
    Default := fun ctx c w =>
      p.Default ctx c { w with log := w.log ++ [Event.invoked (Call.Default ctx c)] }
    Validate := fun ctx c w =>
      p.Validate ctx c { w with log := w.log ++ [Event.invoked (Call.Validate ctx c)] }
    Name := p.Name }

/-- A callback that enters each of its invocations in the log. -/
def spyCallback {σ : Type} : Callback σ :=
  fun node w =>
    (Outcome.returned none, { w with log := w.log ++ [Event.invoked (Call.callback node)] })

/-- The order the spec numbers the steps in, read on the log: of the events a
call adds to the log `before`, the first is the start of the timer. -/
def timerStartsAtEntry (before after : List Event) : Bool :=
  match after.drop before.length with
  | Event.timerStart _ :: _ => true
  | _ => false

/-! ## Sample providers and worlds -/

/-- A provider over a store that lists the objects it has touched. `Create`
takes 100 ns and runs the callback once on node 7 when the quantity is
positive; `Delete` takes 50 ns and fails on node 0; `Default` takes 20 ns and
enters the constraints in the store; `Validate` rejects the constraints 0. -/
def fake : CloudProvider (List Ptr) :=
  { Create := fun _ c _ q cb w =>
      if q ≤ 0 then (Outcome.returned (some "no capacity"), { w with now := w.now + 100 })
      else cb 7 { w with now := w.now + 100, store := w.store ++ [c] }
    Delete := fun _ n w =>
      (Outcome.returned (if n = 0 then some "node not found" else none),
       { w with now := w.now + 50, store := w.store.erase n })
    GetInstanceTypes := fun _ _ w =>
      (Outcome.returned ([⟨"m5.large"⟩, ⟨"c5.xlarge"⟩], none), { w with now := w.now + 10 })
    Default := fun _ c w =>
      (Outcome.returned (), { w with now := w.now + 20, store := w.store ++ [c] })
    Validate := fun _ c w =>
      (Outcome.returned (if c = 0 then some ⟨"missing field(s)", ["spec"], ""⟩ else none),
       { w with now := w.now + 15 })
    Name := "fake" }

/-- A provider whose every method panics after 30 ns. -/
def faulty : CloudProvider (List Ptr) :=
  { Create := fun _ _ _ _ _ w => (Outcome.panicked "boom", { w with now := w.now + 30 })
    Delete := fun _ _ w => (Outcome.panicked "boom", { w with now := w.now + 30 })
    GetInstanceTypes := fun _ _ w => (Outcome.panicked "boom", { w with now := w.now + 30 })
    Default := fun _ _ w => (Outcome.panicked "boom", { w with now := w.now + 30 })
    Validate := fun _ _ w => (Outcome.panicked "boom", { w with now := w.now + 30 })
    Name := "faulty" }

/-- An environment in which every step takes time. -/
def sampleEnv : Env :=
  { Namespace := "karpenter"
    fallback := ""
    tGetControllerName := 5
    tName := 7
    tWithLabelValues := 11
    tCall := 1
    tReturn := 2 }

/-- A context that carries the identifier `provisioning`. -/
def namedCtx : Context := ⟨some "provisioning", 0⟩

/-- A context that carries no identifier. -/
def bareCtx : Context := ⟨none, 0⟩

/-- A world at clock reading 1000 with nothing stored, observed or logged. -/
def sampleWorld : World (List Ptr) := ⟨1000, [], [], []⟩

/-- A call of `Create` for two nodes with the logging callback. -/
def sampleCreate : Invocation (List Ptr) :=
  Invocation.Create namedCtx 3 [⟨"m5.large"⟩] 2 spyCallback

/-- Four calls: a `Create` that succeeds, a `Delete` that fails, a `Default`
and a `Validate` that rejects, the last two under a context without
identifier. -/
def sampleCalls : List (Invocation (List Ptr)) :=
  [sampleCreate, Invocation.Delete namedCtx 0, Invocation.Default bareCtx 4,
   Invocation.Validate bareCtx 0]

/-! ## Shared lemmas -/

theorem deferMeasure_eq {σ : Type} (env : Env) (p : CloudProvider σ) (ctx : Context)
    (method : String) (w : World σ) :
    deferMeasure env ⟨p⟩ ctx method w =
      (Outcome.returned (fun w' =>
          Observe ⟨labelPairs env ctx method p⟩ ((w'.now : Int) - ((w.now + labelTime env : Nat) : Int)) w'),
        armed env ctx method p w) := by
  simp [deferMeasure, WithLabelValues, methodDurationHistogramVec, Measure, step, armed,
    labelPairs, labelTime, decorator.Name, Nat.add_assoc]

theorem Create_eq {σ : Type} (env : Env) (p : CloudProvider σ) (ctx : Context)
    (constraints : Ptr) (instanceTypes : List InstanceType) (quantity : Int)
    (callback : Callback σ) (w : World σ) :
    (Decorate env p).Create ctx constraints instanceTypes quantity callback w =
      ((p.Create ctx constraints instanceTypes quantity callback (entered env ctx "Create" p w)).1,
       finish env (labelPairs env ctx "Create" p) (w.now + labelTime env)
        (p.Create ctx constraints instanceTypes quantity callback (entered env ctx "Create" p w)).2) := by
  simp [Decorate, decorator.Create, deferMeasure_eq, runDeferred, entered, finish, recorded, Observe, elapse]

theorem Delete_eq {σ : Type} (env : Env) (p : CloudProvider σ) (ctx : Context) (node : Ptr)
    (w : World σ) :
    (Decorate env p).Delete ctx node w =
      ((p.Delete ctx node (entered env ctx "Delete" p w)).1,
       finish env (labelPairs env ctx "Delete" p) (w.now + labelTime env)
        (p.Delete ctx node (entered env ctx "Delete" p w)).2) := by
  simp [Decorate, decorator.Delete, deferMeasure_eq, runDeferred, entered, finish, recorded, Observe, elapse]

theorem GetInstanceTypes_eq {σ : Type} (env : Env) (p : CloudProvider σ) (ctx : Context)
    (provider : Ptr) (w : World σ) :
    (Decorate env p).GetInstanceTypes ctx provider w =
      ((p.GetInstanceTypes ctx provider (entered env ctx "GetInstanceTypes" p w)).1,
       finish env (labelPairs env ctx "GetInstanceTypes" p) (w.now + labelTime env)
        (p.GetInstanceTypes ctx provider (entered env ctx "GetInstanceTypes" p w)).2) := by
  simp [Decorate, decorator.GetInstanceTypes, deferMeasure_eq, runDeferred, entered, finish,
    recorded, Observe, elapse]

theorem Default_eq {σ : Type} (env : Env) (p : CloudProvider σ) (ctx : Context)
    (constraints : Ptr) (w : World σ) :
    (Decorate env p).Default ctx constraints w =
      ((p.Default ctx constraints (entered env ctx "Default" p w)).1,
       finish env (labelPairs env ctx "Default" p) (w.now + labelTime env)
        (p.Default ctx constraints (entered env ctx "Default" p w)).2) := by
  simp [Decorate, decorator.Default, deferMeasure_eq, runDeferred, entered, finish, recorded, Observe, elapse]

theorem Validate_eq {σ : Type} (env : Env) (p : CloudProvider σ) (ctx : Context)
    (constraints : Ptr) (w : World σ) :
    (Decorate env p).Validate ctx constraints w =
      ((p.Validate ctx constraints (entered env ctx "Validate" p w)).1,
       finish env (labelPairs env ctx "Validate" p) (w.now + labelTime env)
        (p.Validate ctx constraints (entered env ctx "Validate" p w)).2) := by
  simp [Decorate, decorator.Validate, deferMeasure_eq, runDeferred, entered, finish, recorded,
    Observe, elapse]

/-- A call on the decorator of `p` is the same call on `p`, made once in the
world `entered`, followed by `finish`. -/
theorem invoke_Decorate {σ : Type} (env : Env) (p : CloudProvider σ) (c : Invocation σ)
    (w : World σ) :
    invoke (Decorate env p) c w =
      ((invoke p c (entered env c.ctx c.method p w)).1,
       finish env (labelPairs env c.ctx c.method p) (w.now + labelTime env)
        (invoke p c (entered env c.ctx c.method p w)).2) := by
  cases c <;>
    simp only [invoke, Invocation.ctx, Invocation.method, Create_eq, Delete_eq,
      GetInstanceTypes_eq, Default_eq, Validate_eq]

theorem Decorate_Name {σ : Type} (env : Env) (p : CloudProvider σ) :
    (Decorate env p).Name = p.Name := rfl

theorem invoke_spy {σ : Type} (p : CloudProvider σ) (c : Invocation σ) (w : World σ) :
    invoke (spy p) c w =
      invoke p c { w with log := w.log ++ [Event.invoked c.record] } := by
  cases c <;> rfl

theorem entered_store {σ : Type} (env : Env) (ctx : Context) (method : String)
    (p : CloudProvider σ) (w : World σ) : (entered env ctx method p w).store = w.store := rfl

theorem entered_observed {σ : Type} (env : Env) (ctx : Context) (method : String)
    (p : CloudProvider σ) (w : World σ) : (entered env ctx method p w).observed = w.observed := rfl

theorem entered_now {σ : Type} (env : Env) (ctx : Context) (method : String)
    (p : CloudProvider σ) (w : World σ) :
    (entered env ctx method p w).now = w.now + labelTime env + env.tCall := rfl

theorem entered_log {σ : Type} (env : Env) (ctx : Context) (method : String)
    (p : CloudProvider σ) (w : World σ) :
    (entered env ctx method p w).log =
      w.log ++ [Event.getControllerName ctx, Event.name,
        Event.withLabelValues [GetControllerName env ctx, method, p.Name],
        Event.timerStart (w.now + labelTime env)] := rfl

/-! ## The claims -/

/-- C1: each of the five methods of `Decorate env p` gives back exactly the
outcome (value, error, or nil error) that the method of the same name of `p`
gives back for the same context and arguments; the world `p` is invoked in,
`entered`, has the store and the histogram of the world of the call. -/
theorem C1_returns_inner_result {σ : Type} (env : Env) (p : CloudProvider σ) (ctx : Context)
    (constraints node provider : Ptr) (instanceTypes : List InstanceType) (quantity : Int)
    (callback : Callback σ) (w : World σ) :
    ((Decorate env p).Create ctx constraints instanceTypes quantity callback w).1 =
        (p.Create ctx constraints instanceTypes quantity callback
          (entered env ctx "Create" p w)).1 ∧
    ((Decorate env p).Delete ctx node w).1 =
        (p.Delete ctx node (entered env ctx "Delete" p w)).1 ∧
    ((Decorate env p).GetInstanceTypes ctx provider w).1 =
        (p.GetInstanceTypes ctx provider (entered env ctx "GetInstanceTypes" p w)).1 ∧
    ((Decorate env p).Default ctx constraints w).1 =
        (p.Default ctx constraints (entered env ctx "Default" p w)).1 ∧
    ((Decorate env p).Validate ctx constraints w).1 =
        (p.Validate ctx constraints (entered env ctx "Validate" p w)).1 ∧
    (∀ method : String, (entered env ctx method p w).store = w.store ∧
        (entered env ctx method p w).observed = w.observed) := by
  refine ⟨?_, ?_, ?_, ?_, ?_, fun method => ⟨rfl, rfl⟩⟩
  · rw [Create_eq]
  · rw [Delete_eq]
  · rw [GetInstanceTypes_eq]
  · rw [Default_eq]
  · rw [Validate_eq]

/-- C2: when `p` does not itself observe into the histogram on the calls made,
a finite sequence of calls on `Decorate env p` leaves as many more
observations in the histogram as there are calls. -/
theorem C2_one_measurement_per_call {σ : Type} (env : Env) (p : CloudProvider σ)
    (calls : List (Invocation σ)) (w : World σ)
    (hp : ∀ c ∈ calls, ∀ w' : World σ, (invoke p c w').2.observed = w'.observed) :
    (invokeAll (Decorate env p) calls w).2.observed.length =
      w.observed.length + calls.length := by
  induction calls generalizing w with
  | nil => simp [invokeAll]
  | cons c cs ih =>
    have hc := hp c (List.mem_cons_self c cs)
    have hcs : ∀ c' ∈ cs, ∀ w' : World σ, (invoke p c' w').2.observed = w'.observed :=
      fun c' hc' => hp c' (List.mem_cons_of_mem c hc')
    simp only [invokeAll]
    rw [ih _ hcs, invoke_Decorate]
    simp only [finish, hc, entered_observed, List.length_append, List.length_cons,
      List.length_nil]
    omega

/-- C2, on the sample: four calls on the decorator of `fake`, one of which
returns an error, leave four observations. -/
theorem C2_one_measurement_per_call_witness :
    (∀ c ∈ sampleCalls, ∀ w' : World (List Ptr), (invoke fake c w').2.observed = w'.observed) ∧
    (invokeAll (Decorate sampleEnv fake) sampleCalls sampleWorld).2.observed.length =
      sampleWorld.observed.length + sampleCalls.length :=
  have h : ∀ c ∈ sampleCalls, ∀ w' : World (List Ptr),
      (invoke fake c w').2.observed = w'.observed := by
    intro c hc w'
    simp only [sampleCalls, List.mem_cons, List.mem_singleton, List.not_mem_nil, or_false] at hc
    rcases hc with rfl | rfl | rfl | rfl <;> rfl
  ⟨h, C2_one_measurement_per_call sampleEnv fake sampleCalls sampleWorld h⟩

/-- C3: the measurement a call on `Decorate env p` records carries, under the
label `method`, the static name of the method called and, under `provider`,
`p.Name`; the values are handed to `WithLabelValues` in the order controller,
method, provider, which is the order of the label names the histogram
`cloudprovider_duration_seconds` is declared with. -/
theorem C3_method_and_provider_labels {σ : Type} (env : Env) (p : CloudProvider σ)
    (ctx : Context) (constraints node provider : Ptr) (instanceTypes : List InstanceType)
    (quantity : Int) (callback : Callback σ) (w : World σ) :
    (∃ d : Duration,
      ((Decorate env p).Create ctx constraints instanceTypes quantity callback w).2.observed =
        (p.Create ctx constraints instanceTypes quantity callback
          (entered env ctx "Create" p w)).2.observed ++
        [⟨[("controller", GetControllerName env ctx), ("method", "Create"),
           ("provider", p.Name)], d⟩]) ∧
    (∃ d : Duration,
      ((Decorate env p).Delete ctx node w).2.observed =
        (p.Delete ctx node (entered env ctx "Delete" p w)).2.observed ++
        [⟨[("controller", GetControllerName env ctx), ("method", "Delete"),
           ("provider", p.Name)], d⟩]) ∧
    (∃ d : Duration,
      ((Decorate env p).GetInstanceTypes ctx provider w).2.observed =
        (p.GetInstanceTypes ctx provider
          (entered env ctx "GetInstanceTypes" p w)).2.observed ++
        [⟨[("controller", GetControllerName env ctx), ("method", "GetInstanceTypes"),
           ("provider", p.Name)], d⟩]) ∧
    (∃ d : Duration,
      ((Decorate env p).Default ctx constraints w).2.observed =
        (p.Default ctx constraints (entered env ctx "Default" p w)).2.observed ++
        [⟨[("controller", GetControllerName env ctx), ("method", "Default"),
           ("provider", p.Name)], d⟩]) ∧
    (∃ d : Duration,
      ((Decorate env p).Validate ctx constraints w).2.observed =
        (p.Validate ctx constraints (entered env ctx "Validate" p w)).2.observed ++
        [⟨[("controller", GetControllerName env ctx), ("method", "Validate"),
           ("provider", p.Name)], d⟩]) ∧
    (methodDurationHistogramVec env).labelNames = ["controller", "method", "provider"] ∧
    (∀ controller method name : String,
      WithLabelValues (methodDurationHistogramVec env) [controller, method, name] =
        some ⟨[("controller", controller), ("method", method), ("provider", name)]⟩) ∧
    BuildFQName "" (methodDurationHistogramVec env).opts.Subsystem
      (methodDurationHistogramVec env).opts.Name = "cloudprovider_duration_seconds" := by
  refine ⟨?_, ?_, ?_, ?_, ?_, rfl, fun _ _ _ => rfl, ?_⟩
  · rw [Create_eq]; exact ⟨_, rfl⟩
  · rw [Delete_eq]; exact ⟨_, rfl⟩
  · rw [GetInstanceTypes_eq]; exact ⟨_, rfl⟩
  · rw [Default_eq]; exact ⟨_, rfl⟩
  · rw [Validate_eq]; exact ⟨_, rfl⟩
  · show BuildFQName "" "cloudprovider" "duration_seconds" = "cloudprovider_duration_seconds"
    decide

/-- C4: the measurement a call on `Decorate env p` records carries, under the
label `controller`, what the context accessor returns for the context of the
call: the identifier when the context carries one, the default of the accessor
when it carries none; and whatever the context carries, the call gives back
the outcome of the inner call. -/
theorem C4_controller_label {σ : Type} (env : Env) (p : CloudProvider σ) (c : Invocation σ)
    (w : World σ) (X : String) (scope : Nat) :
    (∃ m : Measurement,
      (invoke (Decorate env p) c w).2.observed =
        (invoke p c (entered env c.ctx c.method p w)).2.observed ++ [m] ∧
      m.label "controller" = some (GetControllerName env c.ctx)) ∧
    GetControllerName env ⟨some X, scope⟩ = X ∧
    GetControllerName env ⟨none, scope⟩ = env.fallback ∧
    (invoke (Decorate env p) c w).1 = (invoke p c (entered env c.ctx c.method p w)).1 := by
  refine ⟨?_, rfl, rfl, ?_⟩
  · rw [invoke_Decorate]
    refine ⟨_, rfl, ?_⟩
    simp [Measurement.label, labelPairs, metricLabelController, List.lookup]
  · rw [invoke_Decorate]

/-- C5: `Default` on `Decorate env p` leaves the store, and with it the
constraints object, exactly as `p.Default` leaves it when invoked with the same
context and pointer on the store of the caller, and records one measurement,
whose label `method` is `Default`. -/
theorem C5_Default_frame {σ : Type} (env : Env) (p : CloudProvider σ) (ctx : Context)
    (constraints : Ptr) (w : World σ) :
    ((Decorate env p).Default ctx constraints w).2.store =
      (p.Default ctx constraints (entered env ctx "Default" p w)).2.store ∧
    (entered env ctx "Default" p w).store = w.store ∧
    (∃ m : Measurement,
      ((Decorate env p).Default ctx constraints w).2.observed =
        (p.Default ctx constraints (entered env ctx "Default" p w)).2.observed ++ [m] ∧
      m.label "method" = some "Default") := by
  refine ⟨?_, rfl, ?_⟩
  · rw [Default_eq]; rfl
  · rw [Default_eq]
    refine ⟨_, rfl, ?_⟩
    simp [Measurement.label, labelPairs, metricLabelController, metricLabelMethod, List.lookup]

/-- C6: a call on `Decorate env p` is the call of the method of the same name
of `p`, made once, with the context and the arguments received (the callback
of `Create` among them, as given), in a world that has the store of the
caller. With `p` instrumented, and `evs` the events `p` itself logs on the
call, the log gains the label steps, the start of the timer, the one call
received by `p`, `evs`, and the observation: no other call of a method of
`p` and no call of the callback by the decorator. -/
theorem C6_forwards_once {σ : Type} (env : Env) (p : CloudProvider σ) (c : Invocation σ)
    (w : World σ) (evs : List Event)
    (hp : ∀ w' : World σ, (invoke p c w').2.log = w'.log ++ evs) :
    invoke (Decorate env p) c w =
      ((invoke p c (entered env c.ctx c.method p w)).1,
       finish env (labelPairs env c.ctx c.method p) (w.now + labelTime env)
        (invoke p c (entered env c.ctx c.method p w)).2) ∧
    (entered env c.ctx c.method p w).store = w.store ∧
    (∃ d : Duration,
      (invoke (Decorate env (spy p)) c w).2.log =
        w.log ++
          [Event.getControllerName c.ctx, Event.name,
           Event.withLabelValues [GetControllerName env c.ctx, c.method, p.Name],
           Event.timerStart (w.now + labelTime env), Event.invoked c.record] ++
          evs ++ [Event.observe d]) := by
  refine ⟨invoke_Decorate env p c w, rfl, ?_⟩
  rw [invoke_Decorate, invoke_spy]
  simp only [finish, hp, entered_log, spy, List.append_assoc, List.cons_append,
    List.nil_append]
  exact ⟨_, rfl⟩

/-- C6, on the sample: `Create` on the decorator of the instrumented `fake`,
with the logging callback, which `fake` runs once. -/
theorem C6_forwards_once_witness :
    (∀ w' : World (List Ptr),
      (invoke fake sampleCreate w').2.log = w'.log ++ [Event.invoked (Call.callback 7)]) ∧
    (invoke (Decorate sampleEnv fake) sampleCreate sampleWorld =
      ((invoke fake sampleCreate
          (entered sampleEnv sampleCreate.ctx sampleCreate.method fake sampleWorld)).1,
       finish sampleEnv (labelPairs sampleEnv sampleCreate.ctx sampleCreate.method fake)
        (sampleWorld.now + labelTime sampleEnv)
        (invoke fake sampleCreate
          (entered sampleEnv sampleCreate.ctx sampleCreate.method fake sampleWorld)).2) ∧
    (entered sampleEnv sampleCreate.ctx sampleCreate.method fake sampleWorld).store =
      sampleWorld.store ∧
    (∃ d : Duration,
      (invoke (Decorate sampleEnv (spy fake)) sampleCreate sampleWorld).2.log =
        sampleWorld.log ++
          [Event.getControllerName sampleCreate.ctx, Event.name,
           Event.withLabelValues
             [GetControllerName sampleEnv sampleCreate.ctx, sampleCreate.method, fake.Name],
           Event.timerStart (sampleWorld.now + labelTime sampleEnv),
           Event.invoked sampleCreate.record] ++
          [Event.invoked (Call.callback 7)] ++ [Event.observe d])) :=
  have h : ∀ w' : World (List Ptr),
      (invoke fake sampleCreate w').2.log = w'.log ++ [Event.invoked (Call.callback 7)] :=
    fun _ => rfl
  ⟨h, C6_forwards_once sampleEnv fake sampleCreate sampleWorld _ h⟩

/-- C7: `Decorate env (Decorate env p)` is a provider like any other. Where `p`
logs `evs` on the call and does not itself observe into the histogram, a call
on it gives back the outcome of the call on `p`, leaves exactly two more
observations, both with the controller, method and provider (`p.Name`) labels
of a single wrapping, and reaches the instrumented `p` exactly once. -/
theorem C7_double_wrap {σ : Type} (env : Env) (p : CloudProvider σ) (c : Invocation σ)
    (w : World σ) (evs : List Event)
    (hlog : ∀ w' : World σ, (invoke p c w').2.log = w'.log ++ evs)
    (hobs : ∀ w' : World σ, (invoke p c w').2.observed = w'.observed) :
    (invoke (Decorate env (Decorate env p)) c w).1 =
      (invoke p c (entered env c.ctx c.method p (entered env c.ctx c.method p w))).1 ∧
    (∃ d₁ d₂ : Duration,
      (invoke (Decorate env (Decorate env p)) c w).2.observed =
        w.observed ++
          [⟨[("controller", GetControllerName env c.ctx), ("method", c.method),
             ("provider", p.Name)], d₁⟩,
           ⟨[("controller", GetControllerName env c.ctx), ("method", c.method),
             ("provider", p.Name)], d₂⟩]) ∧
    (∃ (t₁ t₂ : Nat) (d₁ d₂ : Duration),
      (invoke (Decorate env (Decorate env (spy p))) c w).2.log =
        w.log ++
          [Event.getControllerName c.ctx, Event.name,
           Event.withLabelValues [GetControllerName env c.ctx, c.method, p.Name],
           Event.timerStart t₁,
           Event.getControllerName c.ctx, Event.name,
           Event.withLabelValues [GetControllerName env c.ctx, c.method, p.Name],
           Event.timerStart t₂, Event.invoked c.record] ++
          evs ++ [Event.observe d₁, Event.observe d₂]) := by
  refine ⟨?_, ?_, ?_⟩
  · rw [invoke_Decorate, invoke_Decorate]; rfl
  · rw [invoke_Decorate, invoke_Decorate]
    simp only [finish, hobs, entered_observed, labelPairs, Decorate_Name,
      metricLabelController, metricLabelMethod, metricLabelProvider, List.append_assoc,
      List.cons_append, List.nil_append]
    exact ⟨_, _, rfl⟩
  · rw [invoke_Decorate, invoke_Decorate, invoke_spy]
    simp only [finish, hlog, entered_log, Decorate_Name, spy, List.append_assoc,
      List.cons_append, List.nil_append]
    exact ⟨_, _, _, _, rfl⟩

/-- C7, on the sample: `Create` on the twice decorated `fake`. -/
theorem C7_double_wrap_witness :
    (∀ w' : World (List Ptr),
      (invoke fake sampleCreate w').2.log = w'.log ++ [Event.invoked (Call.callback 7)]) ∧
    (∀ w' : World (List Ptr), (invoke fake sampleCreate w').2.observed = w'.observed) ∧
    ((invoke (Decorate sampleEnv (Decorate sampleEnv fake)) sampleCreate sampleWorld).1 =
      (invoke fake sampleCreate
        (entered sampleEnv sampleCreate.ctx sampleCreate.method fake
          (entered sampleEnv sampleCreate.ctx sampleCreate.method fake sampleWorld))).1 ∧
    (∃ d₁ d₂ : Duration,
      (invoke (Decorate sampleEnv (Decorate sampleEnv fake)) sampleCreate sampleWorld).2.observed =
        sampleWorld.observed ++
          [⟨[("controller", GetControllerName sampleEnv sampleCreate.ctx),
             ("method", sampleCreate.method), ("provider", fake.Name)], d₁⟩,
           ⟨[("controller", GetControllerName sampleEnv sampleCreate.ctx),
             ("method", sampleCreate.method), ("provider", fake.Name)], d₂⟩]) ∧
    (∃ (t₁ t₂ : Nat) (d₁ d₂ : Duration),
      (invoke (Decorate sampleEnv (Decorate sampleEnv (spy fake))) sampleCreate
          sampleWorld).2.log =
        sampleWorld.log ++
          [Event.getControllerName sampleCreate.ctx, Event.name,
           Event.withLabelValues
             [GetControllerName sampleEnv sampleCreate.ctx, sampleCreate.method, fake.Name],
           Event.timerStart t₁,
           Event.getControllerName sampleCreate.ctx, Event.name,
           Event.withLabelValues
             [GetControllerName sampleEnv sampleCreate.ctx, sampleCreate.method, fake.Name],
           Event.timerStart t₂, Event.invoked sampleCreate.record] ++
          [Event.invoked (Call.callback 7)] ++ [Event.observe d₁, Event.observe d₂])) :=
  have hlog : ∀ w' : World (List Ptr),
      (invoke fake sampleCreate w').2.log = w'.log ++ [Event.invoked (Call.callback 7)] :=
    fun _ => rfl
  have hobs : ∀ w' : World (List Ptr), (invoke fake sampleCreate w').2.observed = w'.observed :=
    fun _ => rfl
  ⟨hlog, hobs, C7_double_wrap sampleEnv fake sampleCreate sampleWorld _ hlog hobs⟩

/-- C8: where the clock does not go back while the method of `p` runs, the
time a call on `Decorate env p` records is the reading of the clock when the
deferred closure runs less the reading when the timer was started; the start
is read no later than `p` is invoked and the stop no earlier than `p` has
returned, so the time recorded is not negative and not less than the time
between the invocation of the method of `p` and its return. -/
theorem C8_duration_bounds {σ : Type} (env : Env) (p : CloudProvider σ) (c : Invocation σ)
    (w : World σ)
    (hmono : ∀ w' : World σ, w'.now ≤ (invoke p c w').2.now) :
    ∃ (m : Measurement) (start stop : Nat),
      (invoke (Decorate env p) c w).2.observed =
        (invoke p c (entered env c.ctx c.method p w)).2.observed ++ [m] ∧
      m.elapsed = (stop : Int) - (start : Int) ∧
      start = w.now + labelTime env ∧
      stop = (invoke p c (entered env c.ctx c.method p w)).2.now + env.tReturn ∧
      start ≤ (entered env c.ctx c.method p w).now ∧
      (invoke p c (entered env c.ctx c.method p w)).2.now ≤ stop ∧
      0 ≤ m.elapsed ∧
      ((invoke p c (entered env c.ctx c.method p w)).2.now : Int) -
        ((entered env c.ctx c.method p w).now : Int) ≤ m.elapsed := by
  have h := hmono (entered env c.ctx c.method p w)
  rw [entered_now] at h
  refine ⟨⟨labelPairs env c.ctx c.method p,
      recorded env (w.now + labelTime env) (invoke p c (entered env c.ctx c.method p w)).2⟩,
    w.now + labelTime env,
    (invoke p c (entered env c.ctx c.method p w)).2.now + env.tReturn, ?_, rfl, rfl, rfl, ?_, ?_,
    ?_, ?_⟩
  · rw [invoke_Decorate]; rfl
  · rw [entered_now]; omega
  · omega
  · show (0 : Int) ≤ ((_ + env.tReturn : Nat) : Int) - ((w.now + labelTime env : Nat) : Int)
    omega
  · show _ ≤ ((_ + env.tReturn : Nat) : Int) - ((w.now + labelTime env : Nat) : Int)
    rw [entered_now]
    omega

/-- C8, on the sample: `Delete` on the decorator of `fake`, which takes 50 ns. -/
theorem C8_duration_bounds_witness :
    (∀ w' : World (List Ptr),
      w'.now ≤ (invoke fake (Invocation.Delete namedCtx 0) w').2.now) ∧
    (∃ (m : Measurement) (start stop : Nat),
      (invoke (Decorate sampleEnv fake) (Invocation.Delete namedCtx 0) sampleWorld).2.observed =
        (invoke fake (Invocation.Delete namedCtx 0)
          (entered sampleEnv namedCtx "Delete" fake sampleWorld)).2.observed ++ [m] ∧
      m.elapsed = (stop : Int) - (start : Int) ∧
      start = sampleWorld.now + labelTime sampleEnv ∧
      stop = (invoke fake (Invocation.Delete namedCtx 0)
          (entered sampleEnv namedCtx "Delete" fake sampleWorld)).2.now + sampleEnv.tReturn ∧
      start ≤ (entered sampleEnv namedCtx "Delete" fake sampleWorld).now ∧
      (invoke fake (Invocation.Delete namedCtx 0)
          (entered sampleEnv namedCtx "Delete" fake sampleWorld)).2.now ≤ stop ∧
      0 ≤ m.elapsed ∧
      ((invoke fake (Invocation.Delete namedCtx 0)
          (entered sampleEnv namedCtx "Delete" fake sampleWorld)).2.now : Int) -
        ((entered sampleEnv namedCtx "Delete" fake sampleWorld).now : Int) ≤ m.elapsed) :=
  have h : ∀ w' : World (List Ptr),
      w'.now ≤ (invoke fake (Invocation.Delete namedCtx 0) w').2.now :=
    fun w' => Nat.le_add_right w'.now 50
  ⟨h, C8_duration_bounds sampleEnv fake (Invocation.Delete namedCtx 0) sampleWorld h⟩

/-- C9: when the method of `p` panics, the method of `Decorate env p` still
records its one measurement, with the usual labels, and unwinds with the same
panic value. -/
theorem C9_panic_still_measured {σ : Type} (env : Env) (p : CloudProvider σ)
    (c : Invocation σ) (w : World σ) (v : String)
    (hpanic : (invoke p c (entered env c.ctx c.method p w)).1.panic? = some v) :
    (invoke (Decorate env p) c w).1.panic? = some v ∧
    (invoke (Decorate env p) c w).1 = (invoke p c (entered env c.ctx c.method p w)).1 ∧
    (∃ d : Duration,
      (invoke (Decorate env p) c w).2.observed =
        (invoke p c (entered env c.ctx c.method p w)).2.observed ++
          [⟨[("controller", GetControllerName env c.ctx), ("method", c.method),
             ("provider", p.Name)], d⟩]) := by
  rw [invoke_Decorate]
  exact ⟨hpanic, rfl, _, rfl⟩

/-- C9, on the sample: `Create` on the decorator of `faulty`. -/
theorem C9_panic_still_measured_witness :
    (invoke faulty sampleCreate
      (entered sampleEnv sampleCreate.ctx sampleCreate.method faulty sampleWorld)).1.panic? =
        some "boom" ∧
    ((invoke (Decorate sampleEnv faulty) sampleCreate sampleWorld).1.panic? = some "boom" ∧
    (invoke (Decorate sampleEnv faulty) sampleCreate sampleWorld).1 =
      (invoke faulty sampleCreate
        (entered sampleEnv sampleCreate.ctx sampleCreate.method faulty sampleWorld)).1 ∧
    (∃ d : Duration,
      (invoke (Decorate sampleEnv faulty) sampleCreate sampleWorld).2.observed =
        (invoke faulty sampleCreate
          (entered sampleEnv sampleCreate.ctx sampleCreate.method faulty
            sampleWorld)).2.observed ++
          [⟨[("controller", GetControllerName sampleEnv sampleCreate.ctx),
             ("method", sampleCreate.method), ("provider", faulty.Name)], d⟩])) :=
  ⟨rfl, C9_panic_still_measured sampleEnv faulty sampleCreate sampleWorld "boom" rfl⟩

/-- C10, refuted on the sample: `Create` on the decorator of the instrumented
`fake`, entered at clock reading 1000. The first events of the call are the
context accessor, `Name` and the lookup of the child, which take 23 ns; the
timer is started after them, at reading 1023; the inner call takes 100 ns,
and the time recorded, 103 ns, does not cover the 23 ns of the label steps. -/
theorem C10_timer_not_started_at_entry :
    timerStartsAtEntry sampleWorld.log
        (invoke (Decorate sampleEnv (spy fake)) sampleCreate sampleWorld).2.log = false ∧
    (invoke (Decorate sampleEnv (spy fake)) sampleCreate sampleWorld).2.log =
      [Event.getControllerName namedCtx, Event.name,
       Event.withLabelValues ["provisioning", "Create", "fake"],
       Event.timerStart 1023,
       Event.invoked (Call.Create namedCtx 3 [⟨"m5.large"⟩] 2),
       Event.invoked (Call.callback 7),
       Event.observe 103] ∧
    sampleWorld.now = 1000 ∧
    labelTime sampleEnv = 23 ∧
    (invoke (spy fake) sampleCreate
        (entered sampleEnv namedCtx "Create" (spy fake) sampleWorld)).2.now =
      (entered sampleEnv namedCtx "Create" (spy fake) sampleWorld).now + 100 ∧
    (invoke (Decorate sampleEnv (spy fake)) sampleCreate sampleWorld).2.observed =
      [⟨[("controller", "provisioning"), ("method", "Create"), ("provider", "fake")], 103⟩] ∧
    ¬ ∃ m ∈ (invoke (Decorate sampleEnv (spy fake)) sampleCreate sampleWorld).2.observed,
        (labelTime sampleEnv : Int) + 100 ≤ m.elapsed := by
  decide

/-- C10, amended: in each of the five methods the label values are obtained
first (the identifier from the context, then the provider name, then the
child of the histogram), the timer is started after them, at the reading
of entry plus the time of the label steps, and only then is the inner
method invoked; the time recorded runs from that reading to the run of the
deferred closure, so it covers the inner call and not the label steps. -/
theorem C10_labels_then_timer_then_call {σ : Type} (env : Env) (p : CloudProvider σ)
    (c : Invocation σ) (w : World σ) :
    invoke (Decorate env p) c w =
      ((invoke p c (entered env c.ctx c.method p w)).1,
       finish env (labelPairs env c.ctx c.method p) (w.now + labelTime env)
        (invoke p c (entered env c.ctx c.method p w)).2) ∧
    (entered env c.ctx c.method p w).log =
      w.log ++ [Event.getControllerName c.ctx, Event.name,
        Event.withLabelValues [GetControllerName env c.ctx, c.method, p.Name],
        Event.timerStart (w.now + labelTime env)] ∧
    timerStartsAtEntry w.log (entered env c.ctx c.method p w).log = false ∧
    (entered env c.ctx c.method p w).now = w.now + labelTime env + env.tCall ∧
    (invoke (Decorate env p) c w).2.observed =
      (invoke p c (entered env c.ctx c.method p w)).2.observed ++
        [⟨[("controller", GetControllerName env c.ctx), ("method", c.method),
           ("provider", p.Name)],
          (((invoke p c (entered env c.ctx c.method p w)).2.now + env.tReturn : Nat) : Int) -
            ((w.now + labelTime env : Nat) : Int)⟩] := by
  refine ⟨invoke_Decorate env p c w, rfl, ?_, rfl, ?_⟩
  · simp [timerStartsAtEntry, entered_log]
  · rw [invoke_Decorate]; rfl

end Karpenter
